import Mathlib

/-!
Shallow embedding of `src/storage_service.py` (Cloud Storage Tiering Service).

Timestamps are modelled as integers counting microseconds (the resolution of
Python `datetime`); a `timedelta(days = k)` is `k * usPerDay` microseconds and
`timedelta.days` is floor division by `usPerDay` (Python normalises a timedelta
so that `.days = floor(total_microseconds / 86400000000)`).

Registries (`files_metadata`, `files_content`) are modelled as association
lists keyed by the object id, mirroring the insertion-ordered Python dicts.
-/

namespace StorageService

/-- `class StorageTier(str, Enum)` with members HOT, WARM, COLD. -/
inductive StorageTier where
  | HOT
  | WARM
  | COLD
  deriving DecidableEq, Repr

/-- Microseconds in a day: the divisor implicit in Python `timedelta.days`. -/
def usPerDay : Int := 86400000000

/-- `(t1 - t2).days` for two `datetime` values `t1`, `t2` held in microseconds:
Python normalises the difference so `.days` is the floor of the quotient. -/
def daysBetween (t1 t2 : Int) : Int := Int.fdiv (t1 - t2) usPerDay

/-- `class FileMetadata(BaseModel)`: the per-object metadata record. -/
structure FileMetadata where
  file_id : String
  filename : String
  size : Nat
  tier : StorageTier
  created_at : Int
  last_accessed : Int
  content_type : String
  etag : String
  deriving DecidableEq, Repr

/-- ASCII upper-casing of a string's characters, modelling Python `str.upper()`
on the ASCII identifiers the service uses. -/
def upperChars (s : String) : List Char := s.data.map Char.toUpper

/-- Substring test on character lists: `pattern` occurs contiguously in `l`.
Models Python `pattern in l`. -/
def listContainsSub (pattern : List Char) : List Char → Bool
  | [] => pattern.isEmpty
  | c :: rest => List.isPrefixOf pattern (c :: rest) || listContainsSub pattern rest

/-- `"_PRIORITY_" in filename.upper()` (the priority-pin test of
`apply_special_rules`). -/
def isPriorityName (filename : String) : Bool :=
  listContainsSub "_PRIORITY_".data (upperChars filename)

/-- `filename.upper().startswith("LEGAL_")` (the retention-class test of
`apply_special_rules`). -/
def isLegalName (filename : String) : Bool :=
  List.isPrefixOf "LEGAL_".data (upperChars filename)

/-- `apply_special_rules(file_metadata)`: returns the tier to force the file
into, or `none` to use normal tiering rules.  `now` stands for the
`datetime.utcnow()` the function reads (fixed-clock model: the same instant as
the surrounding pass). -/
def apply_special_rules (now : Int) (m : FileMetadata) : Option StorageTier :=
  if isPriorityName m.filename then some StorageTier.HOT
  else if isLegalName m.filename then
    if m.tier = StorageTier.WARM then
      if daysBetween now m.last_accessed ≤ 180 then some StorageTier.WARM
      else none
    else none
  else none

/-- `TIER_CONFIG[tier]["max_age_days"]`. -/
def max_age_days : StorageTier → Option Int
  | StorageTier.HOT => some 30
  | StorageTier.WARM => some 90
  | StorageTier.COLD => none

/-- `TIER_CONFIG[tier]["next_tier"]`. -/
def next_tier : StorageTier → Option StorageTier
  | StorageTier.HOT => some StorageTier.WARM
  | StorageTier.WARM => some StorageTier.COLD
  | StorageTier.COLD => none

/-- The body of `run_tiering`'s loop for one record: the updated record and the
amount (0 or 1) added to `moved_count` for it. -/
def tierStep (now : Int) (m : FileMetadata) : FileMetadata × Nat :=
  match apply_special_rules now m with
  | some forced =>
      if m.tier ≠ forced then ({ m with tier := forced }, 1) else (m, 0)
  | none =>
      if m.tier = StorageTier.COLD then (m, 0)
      else
        match max_age_days m.tier with
        | none => (m, 0)
        | some threshold =>
            if daysBetween now m.last_accessed ≥ threshold then
              match next_tier m.tier with
              | some nt => ({ m with tier := nt }, 1)
              | none => (m, 0)
            else (m, 0)

/-- `run_tiering()`: one pass over the registry snapshot, mutating each record
by `tierStep` and summing `moved_count`.  `now` is the `current_time` captured
at the start of the pass. -/
def run_tiering (now : Int) : List (String × FileMetadata) →
    List (String × FileMetadata) × Nat
  | [] => ([], 0)
  | (fid, m) :: rest =>
      ((fid, (tierStep now m).1) :: (run_tiering now rest).1,
       (tierStep now m).2 + (run_tiering now rest).2)

/-- A cell of the Python dict `files_metadata`.  The dict is typed
`Dict[str, FileMetadata]` but Python does not enforce it: the fault-injection
tests store a plain dict (`files_metadata[fid] = {"invalid": "data"}`), so a
cell either holds a conforming `FileMetadata` or a value that fails to conform
to the expected shape (`corrupt`). -/
inductive RegRecord where
  | valid : FileMetadata → RegRecord
  | corrupt : RegRecord
  deriving DecidableEq, Repr

/-- `run_tiering()` run over a registry that may hold non-conforming records,
with Python exception semantics: `apply_special_rules` begins by reading
`file_metadata.filename`, which on a non-conforming record raises
`AttributeError`; `run_tiering` wraps no record in a `try`/`except`, so the
exception propagates out of the loop and the endpoint never returns its
success payload (FastAPI surfaces HTTP 500).  `.error ()` models that abort;
`.ok` carries the updated registry and `files_moved`. -/
def run_tiering_exc (now : Int) : List (String × RegRecord) →
    Except Unit (List (String × RegRecord) × Nat)
  | [] => Except.ok ([], 0)
  | (_, RegRecord.corrupt) :: _ => Except.error ()
  | (fid, RegRecord.valid m) :: rest =>
      match run_tiering_exc now rest with
      | Except.error e => Except.error e
      | Except.ok (rest', c) =>
          Except.ok ((fid, RegRecord.valid (tierStep now m).1) :: rest',
                     (tierStep now m).2 + c)

/-- Association-list lookup, modelling `file_id in d` / `d[file_id]` on a
Python dict. -/
def lookupAssoc {α : Type} (l : List (String × α)) (k : String) : Option α :=
  match l with
  | [] => none
  | (k', v) :: rest => if k' = k then some v else lookupAssoc rest k

/-- Association-list update at an existing key, modelling `d[file_id] = v` (or
an in-place mutation of the record stored there) on a Python dict. -/
def updateAssoc {α : Type} (l : List (String × α)) (k : String) (v : α) :
    List (String × α) :=
  l.map (fun p => if p.1 = k then (p.1, v) else p)

/-- The module-level state: `files_metadata` and `files_content`.  File bytes
are modelled as lists of byte values. -/
structure ServiceState where
  files_metadata : List (String × FileMetadata)
  files_content : List (String × List Nat)
  deriving DecidableEq, Repr

/-- `upload_file(file)`: validate the size, then create metadata and store
bytes.  `file_id` and `etag` stand for the two generated UUIDs, `now` for
`datetime.utcnow()`.  Returns the response (metadata, or the `HTTPException`
detail string) together with the state after the call. -/
def upload_file (now : Int) (file_id etag filename content_type : String)
    (content : List Nat) (s : ServiceState) :
    Except String FileMetadata × ServiceState :=
  if content.length < 1024 * 1024 then
    (Except.error "File size must be at least 1MB", s)
  else if content.length > 10 * 1024 * 1024 * 1024 then
    (Except.error "File size exceeds maximum limit of 10GB", s)
  else
    let metadata : FileMetadata :=
      { file_id := file_id, filename := filename, size := content.length,
        tier := StorageTier.HOT, created_at := now, last_accessed := now,
        content_type := content_type, etag := etag }
    (Except.ok metadata,
     { files_metadata := s.files_metadata ++ [(file_id, metadata)],
       files_content := s.files_content ++ [(file_id, content)] })

/-- `download_file(file_id)`: 404 on unknown id; otherwise set
`last_accessed = utcnow()` on the record (an in-place mutation, performed
before the bytes are read) and return content, filename and content type. -/
def download_file (now : Int) (file_id : String) (s : ServiceState) :
    Except String (List Nat × String × String) × ServiceState :=
  match lookupAssoc s.files_metadata file_id with
  | none => (Except.error "File not found", s)
  | some metadata =>
      let metadata' := { metadata with last_accessed := now }
      let s' := { s with
        files_metadata := updateAssoc s.files_metadata file_id metadata' }
      match lookupAssoc s.files_content file_id with
      | none => (Except.error "KeyError", s')
      | some content =>
          (Except.ok (content, metadata'.filename, metadata'.content_type), s')

/-- `get_file_metadata(file_id)`: 404 on unknown id, otherwise return the
record; no mutation. -/
def get_file_metadata (file_id : String) (s : ServiceState) :
    Except String FileMetadata × ServiceState :=
  match lookupAssoc s.files_metadata file_id with
  | none => (Except.error "File not found", s)
  | some m => (Except.ok m, s)

/-- `update_last_accessed(file_id, request)`: 404 on unknown id, otherwise set
`last_accessed = utcnow() - timedelta(days=request.days_ago)`.  The request
field `days_ago` is a plain `int`, so any integer (negative included) is
accepted.  Returns the new `last_accessed` and the state after the call. -/
def update_last_accessed (now : Int) (file_id : String) (days_ago : Int)
    (s : ServiceState) : Except String Int × ServiceState :=
  match lookupAssoc s.files_metadata file_id with
  | none => (Except.error "File not found", s)
  | some m =>
      let m' := { m with last_accessed := now - days_ago * usPerDay }
      (Except.ok m'.last_accessed,
       { s with files_metadata := updateAssoc s.files_metadata file_id m' })

/-- A concrete metadata record with the given name, tier and access
timestamp, used to evaluate the model on specific inputs. -/
def sampleMeta (filename : String) (tier : StorageTier) (last_accessed : Int) :
    FileMetadata :=
  { file_id := "id-1", filename := filename, size := 2097152, tier := tier,
    created_at := last_accessed, last_accessed := last_accessed,
    content_type := "application/octet-stream", etag := "" }

/-! ### Basic lemmas about one tiering step -/

theorem tierStep_filename (now : Int) (m : FileMetadata) :
    ((tierStep now m).1).filename = m.filename := by
  unfold tierStep
  repeat' split
  all_goals rfl

theorem tierStep_last_accessed (now : Int) (m : FileMetadata) :
    ((tierStep now m).1).last_accessed = m.last_accessed := by
  unfold tierStep
  repeat' split
  all_goals rfl

theorem tierStep_of_priority (now : Int) (m : FileMetadata)
    (hp : isPriorityName m.filename = true) :
    (tierStep now m).1 = { m with tier := StorageTier.HOT } := by
  unfold tierStep apply_special_rules
  simp only [hp, if_true]
  split
  · rfl
  · rename_i h
    simp only [ne_eq, not_not] at h
    cases m
    simp_all

theorem tierStep_of_priority_hot (now : Int) (m : FileMetadata)
    (hp : isPriorityName m.filename = true) (ht : m.tier = StorageTier.HOT) :
    tierStep now m = (m, 0) := by
  unfold tierStep apply_special_rules
  simp [hp, ht]

theorem tierStep_of_cold (now : Int) (m : FileMetadata)
    (hp : isPriorityName m.filename = false) (ht : m.tier = StorageTier.COLD) :
    tierStep now m = (m, 0) := by
  unfold tierStep apply_special_rules
  simp [hp, ht]

theorem tierStep_of_hot_fresh (now : Int) (m : FileMetadata)
    (hp : isPriorityName m.filename = false) (ht : m.tier = StorageTier.HOT)
    (hd : daysBetween now m.last_accessed < 30) :
    tierStep now m = (m, 0) := by
  unfold tierStep apply_special_rules
  simp [hp, ht, max_age_days]
  omega

theorem tierStep_of_hot_stale (now : Int) (m : FileMetadata)
    (hp : isPriorityName m.filename = false) (ht : m.tier = StorageTier.HOT)
    (hd : 30 ≤ daysBetween now m.last_accessed) :
    tierStep now m = ({ m with tier := StorageTier.WARM }, 1) := by
  unfold tierStep apply_special_rules
  simp [hp, ht, max_age_days, next_tier]
  omega

theorem tierStep_of_warm_legal (now : Int) (m : FileMetadata)
    (hp : isPriorityName m.filename = false) (hl : isLegalName m.filename = true)
    (ht : m.tier = StorageTier.WARM)
    (hd : daysBetween now m.last_accessed ≤ 180) :
    tierStep now m = (m, 0) := by
  unfold tierStep apply_special_rules
  simp [hp, hl, ht, hd]

theorem tierStep_of_warm_fresh (now : Int) (m : FileMetadata)
    (hp : isPriorityName m.filename = false) (hl : isLegalName m.filename = false)
    (ht : m.tier = StorageTier.WARM)
    (hd : daysBetween now m.last_accessed < 90) :
    tierStep now m = (m, 0) := by
  unfold tierStep apply_special_rules
  simp [hp, hl, ht, max_age_days]
  omega

theorem tierStep_of_warm_stale (now : Int) (m : FileMetadata)
    (hp : isPriorityName m.filename = false) (hl : isLegalName m.filename = false)
    (ht : m.tier = StorageTier.WARM)
    (hd : 90 ≤ daysBetween now m.last_accessed) :
    tierStep now m = ({ m with tier := StorageTier.COLD }, 1) := by
  unfold tierStep apply_special_rules
  simp [hp, hl, ht, max_age_days, next_tier]
  omega

theorem tierStep_of_warm_legal_stale (now : Int) (m : FileMetadata)
    (hp : isPriorityName m.filename = false) (hl : isLegalName m.filename = true)
    (ht : m.tier = StorageTier.WARM)
    (hd : 180 < daysBetween now m.last_accessed) :
    tierStep now m = ({ m with tier := StorageTier.COLD }, 1) := by
  have h1 : ¬ (daysBetween now m.last_accessed ≤ 180) := by omega
  have h2 : (90 : Int) ≤ daysBetween now m.last_accessed := by omega
  unfold tierStep apply_special_rules
  simp [hp, hl, ht, h1, h2, max_age_days, next_tier]

/-! ### Lemmas about a whole pass -/

theorem run_tiering_append (now : Int) (xs ys : List (String × FileMetadata)) :
    run_tiering now (xs ++ ys) =
      ((run_tiering now xs).1 ++ (run_tiering now ys).1,
       (run_tiering now xs).2 + (run_tiering now ys).2) := by
  induction xs with
  | nil => simp [run_tiering]
  | cons p rest ih =>
      obtain ⟨fid, m⟩ := p
      simp [run_tiering, ih, Nat.add_assoc]

theorem run_tiering_fst_map (now : Int) (reg : List (String × FileMetadata)) :
    (run_tiering now reg).1 = reg.map (fun p => (p.1, (tierStep now p.2).1)) := by
  induction reg with
  | nil => rfl
  | cons p rest ih =>
      obtain ⟨fid, m⟩ := p
      simp [run_tiering, ih]

theorem run_tiering_of_settled (now : Int) (reg : List (String × FileMetadata))
    (h : ∀ p ∈ reg, tierStep now p.2 = (p.2, 0)) :
    run_tiering now reg = (reg, 0) := by
  induction reg with
  | nil => rfl
  | cons p rest ih =>
      obtain ⟨fid, m⟩ := p
      have hm := h (fid, m) (List.mem_cons_self _ _)
      have hrest := ih (fun q hq => h q (List.mem_cons_of_mem _ hq))
      simp [run_tiering, hm, hrest]

/-- After two applications of the per-record step (with the clock fixed), a
record is at rest: a third step leaves it unchanged and moves nothing. -/
theorem tierStep_settled_after_two (now : Int) (m : FileMetadata) :
    tierStep now ((tierStep now ((tierStep now m).1)).1) =
      ((tierStep now ((tierStep now m).1)).1, 0) := by
  by_cases hp : isPriorityName m.filename = true
  · have h1 : (tierStep now m).1 = { m with tier := StorageTier.HOT } :=
      tierStep_of_priority now m hp
    have h2 : tierStep now ({ m with tier := StorageTier.HOT }) =
        ({ m with tier := StorageTier.HOT }, 0) :=
      tierStep_of_priority_hot now _ hp rfl
    rw [h1, h2, h2]
  · have hp' : isPriorityName m.filename = false := by
      cases h : isPriorityName m.filename
      · rfl
      · exact absurd h hp
    by_cases hl : isLegalName m.filename = true
    · -- retention-class name, no priority marker
      cases ht : m.tier with
      | COLD =>
          have h1 : tierStep now m = (m, 0) := tierStep_of_cold now m hp' ht
          rw [h1, h1, h1]
      | HOT =>
          rcases lt_or_ge (daysBetween now m.last_accessed) 30 with hd | hd
          · have h1 : tierStep now m = (m, 0) := tierStep_of_hot_fresh now m hp' ht hd
            rw [h1, h1, h1]
          · have h1 : tierStep now m = ({ m with tier := StorageTier.WARM }, 1) :=
              tierStep_of_hot_stale now m hp' ht hd
            rcases le_or_lt (daysBetween now m.last_accessed) 180 with hd2 | hd2
            · have h2 : tierStep now ({ m with tier := StorageTier.WARM }) =
                  ({ m with tier := StorageTier.WARM }, 0) :=
                tierStep_of_warm_legal now _ hp' hl rfl hd2
              rw [h1, h2, h2]
            · have h2 : tierStep now ({ m with tier := StorageTier.WARM }) =
                  ({ m with tier := StorageTier.COLD }, 1) :=
                tierStep_of_warm_legal_stale now _ hp' hl rfl hd2
              have h3 : tierStep now ({ m with tier := StorageTier.COLD }) =
                  ({ m with tier := StorageTier.COLD }, 0) :=
                tierStep_of_cold now _ hp' rfl
              rw [h1, h2, h3]
      | WARM =>
          rcases le_or_lt (daysBetween now m.last_accessed) 180 with hd | hd
          · have h1 : tierStep now m = (m, 0) := tierStep_of_warm_legal now m hp' hl ht hd
            rw [h1, h1, h1]
          · have h1 : tierStep now m = ({ m with tier := StorageTier.COLD }, 1) :=
              tierStep_of_warm_legal_stale now m hp' hl ht hd
            have h2 : tierStep now ({ m with tier := StorageTier.COLD }) =
                ({ m with tier := StorageTier.COLD }, 0) :=
              tierStep_of_cold now _ hp' rfl
            rw [h1, h2, h2]
    · -- no override rule matches the name
      have hl' : isLegalName m.filename = false := by
        cases h : isLegalName m.filename
        · rfl
        · exact absurd h hl
      cases ht : m.tier with
      | COLD =>
          have h1 : tierStep now m = (m, 0) := tierStep_of_cold now m hp' ht
          rw [h1, h1, h1]
      | WARM =>
          rcases lt_or_ge (daysBetween now m.last_accessed) 90 with hd | hd
          · have h1 : tierStep now m = (m, 0) := tierStep_of_warm_fresh now m hp' hl' ht hd
            rw [h1, h1, h1]
          · have h1 : tierStep now m = ({ m with tier := StorageTier.COLD }, 1) :=
              tierStep_of_warm_stale now m hp' hl' ht hd
            have h2 : tierStep now ({ m with tier := StorageTier.COLD }) =
                ({ m with tier := StorageTier.COLD }, 0) :=
              tierStep_of_cold now _ hp' rfl
            rw [h1, h2, h2]
      | HOT =>
          rcases lt_or_ge (daysBetween now m.last_accessed) 30 with hd | hd
          · have h1 : tierStep now m = (m, 0) := tierStep_of_hot_fresh now m hp' ht hd
            rw [h1, h1, h1]
          · have h1 : tierStep now m = ({ m with tier := StorageTier.WARM }, 1) :=
              tierStep_of_hot_stale now m hp' ht hd
            rcases lt_or_ge (daysBetween now m.last_accessed) 90 with hd2 | hd2
            · have h2 : tierStep now ({ m with tier := StorageTier.WARM }) =
                  ({ m with tier := StorageTier.WARM }, 0) :=
                tierStep_of_warm_fresh now _ hp' hl' rfl hd2
              rw [h1, h2, h2]
            · have h2 : tierStep now ({ m with tier := StorageTier.WARM }) =
                  ({ m with tier := StorageTier.COLD }, 1) :=
                tierStep_of_warm_stale now _ hp' hl' rfl hd2
              have h3 : tierStep now ({ m with tier := StorageTier.COLD }) =
                  ({ m with tier := StorageTier.COLD }, 0) :=
                tierStep_of_cold now _ hp' rfl
              rw [h1, h2, h3]

/-! ### Claim theorems -/

/-- C1 (counterexample): `run_tiering` is not idempotent under a fixed clock.
For a registry holding one HOT record with no override-rule name whose last
access is 130 days old, the second immediately-following pass moves 1 object
(the record goes HOT→WARM on the first pass and WARM→COLD on the second), not
0 as the claim states. -/
theorem c1_second_pass_moves_counterexample :
    (run_tiering 0 ((run_tiering 0
        [("a", { file_id := "a", filename := "report", size := 2097152,
                 tier := StorageTier.HOT,
                 created_at := -11232000000000,
                 last_accessed := -11232000000000,
                 content_type := "application/octet-stream",
                 etag := "" })]).1)).2 = 1 := by decide

/-- C1 (amended): under a fixed clock, the registry reached after two
consecutive `run_tiering` passes is a fixed point — a third pass moves 0
objects and leaves every record unchanged.  (The second pass alone can still
move objects: a record stale enough for two demotions moves HOT→WARM and then
WARM→COLD.) -/
theorem c1_fixed_point_after_two_passes (now : Int)
    (reg : List (String × FileMetadata)) :
    run_tiering now ((run_tiering now ((run_tiering now reg).1)).1) =
      ((run_tiering now ((run_tiering now reg).1)).1, 0) := by
  apply run_tiering_of_settled
  intro p hp
  rw [run_tiering_fst_map, run_tiering_fst_map, List.map_map] at hp
  rw [List.mem_map] at hp
  obtain ⟨q, _, rfl⟩ := hp
  exact tierStep_settled_after_two now q.2

/-- C2 (code evaluated at the failing input): `run_tiering` wraps no record in
an exception handler, so a registry holding one record that cannot be
evaluated makes the whole pass abort — it never returns its success payload,
even though the registry also holds a perfectly valid record.  The claim says
the corrupt record is skipped and the pass still reports success with the
moved count. -/
theorem c2_pass_aborts_on_corrupt_record :
    run_tiering_exc 0
      [("f1", RegRecord.valid
          { file_id := "f1", filename := "report", size := 2097152,
            tier := StorageTier.HOT, created_at := 0, last_accessed := 0,
            content_type := "application/octet-stream", etag := "" }),
       ("bad", RegRecord.corrupt)] = Except.error () := rfl

/-- C3: a retention-class object (name starts with the case-insensitive
`LEGAL_` marker, no `_PRIORITY_` marker) sitting in WARM is left in place and
contributes 0 to the moved count when its days-since-access is exactly 180,
and is moved to COLD (contributing 1) when it is 181 — wherever it sits in the
registry. -/
theorem c3_retention_boundary (now : Int)
    (pre post : List (String × FileMetadata)) (fid : String) (m : FileMetadata)
    (hl : isLegalName m.filename = true)
    (hp : isPriorityName m.filename = false)
    (ht : m.tier = StorageTier.WARM) :
    (daysBetween now m.last_accessed = 180 →
       run_tiering now (pre ++ (fid, m) :: post) =
         ((run_tiering now pre).1 ++ (fid, m) :: (run_tiering now post).1,
          (run_tiering now pre).2 + (run_tiering now post).2)) ∧
    (daysBetween now m.last_accessed = 181 →
       run_tiering now (pre ++ (fid, m) :: post) =
         ((run_tiering now pre).1 ++
            (fid, { m with tier := StorageTier.COLD }) ::
            (run_tiering now post).1,
          (run_tiering now pre).2 + 1 + (run_tiering now post).2)) := by
  constructor
  · intro hd
    have hstep : tierStep now m = (m, 0) :=
      tierStep_of_warm_legal now m hp hl ht (by omega)
    rw [run_tiering_append]
    simp [run_tiering, hstep]
  · intro hd
    have hstep : tierStep now m = ({ m with tier := StorageTier.COLD }, 1) :=
      tierStep_of_warm_legal_stale now m hp hl ht (by omega)
    rw [run_tiering_append]
    simp [run_tiering, hstep, Prod.ext_iff]
    omega

/-- C4: an object whose name contains the case-insensitive `_PRIORITY_` marker
ends a pass in HOT, regardless of its age, of its prior tier, and of whether
its name also starts with `LEGAL_` (the priority rule is checked first) —
wherever it sits in the registry. -/
theorem c4_priority_always_hot (now : Int)
    (pre post : List (String × FileMetadata)) (fid : String) (m : FileMetadata)
    (hp : isPriorityName m.filename = true) :
    (run_tiering now (pre ++ (fid, m) :: post)).1 =
      (run_tiering now pre).1 ++
        (fid, { m with tier := StorageTier.HOT }) ::
        (run_tiering now post).1 := by
  rw [run_tiering_append]
  simp [run_tiering, tierStep_of_priority now m hp]

/-- C5: an object in HOT whose name matches no override rule, last accessed
130 days ago, needs exactly two passes under a fixed clock to reach COLD: the
first pass leaves it in WARM (moving 1), the second moves it to COLD
(moving 1). -/
theorem c5_two_passes_hot_to_cold (now : Int) (fid : String) (m : FileMetadata)
    (hp : isPriorityName m.filename = false)
    (hl : isLegalName m.filename = false)
    (ht : m.tier = StorageTier.HOT)
    (hd : daysBetween now m.last_accessed = 130) :
    run_tiering now [(fid, m)] =
      ([(fid, { m with tier := StorageTier.WARM })], 1) ∧
    run_tiering now [(fid, { m with tier := StorageTier.WARM })] =
      ([(fid, { m with tier := StorageTier.COLD })], 1) := by
  have h1 : tierStep now m = ({ m with tier := StorageTier.WARM }, 1) :=
    tierStep_of_hot_stale now m hp ht (by omega)
  have h2 : tierStep now ({ m with tier := StorageTier.WARM }) =
      ({ m with tier := StorageTier.COLD }, 1) :=
    tierStep_of_warm_stale now _ hp hl rfl
      (show (90 : Int) ≤ daysBetween now m.last_accessed by omega)
  exact ⟨by simp [run_tiering, h1], by simp [run_tiering, h2]⟩

/-- C6: an object whose name matches no override rule moves at most one step
along HOT→WARM→COLD in a single pass: its tier afterwards is either unchanged
or the schedule's immediate next tier — wherever it sits in the registry. -/
theorem c6_single_step_demotion (now : Int)
    (pre post : List (String × FileMetadata)) (fid : String) (m : FileMetadata)
    (hp : isPriorityName m.filename = false)
    (hl : isLegalName m.filename = false) :
    ∃ m', (run_tiering now (pre ++ (fid, m) :: post)).1 =
        (run_tiering now pre).1 ++ (fid, m') :: (run_tiering now post).1 ∧
      (m'.tier = m.tier ∨ next_tier m.tier = some m'.tier) := by
  refine ⟨(tierStep now m).1, ?_, ?_⟩
  · rw [run_tiering_append]
    simp [run_tiering]
  · cases ht : m.tier with
    | COLD =>
        left
        rw [tierStep_of_cold now m hp ht]
        exact ht
    | HOT =>
        rcases lt_or_le (daysBetween now m.last_accessed) 30 with hd | hd
        · left
          rw [tierStep_of_hot_fresh now m hp ht hd]
          exact ht
        · right
          rw [tierStep_of_hot_stale now m hp ht hd]
          rfl
    | WARM =>
        rcases lt_or_le (daysBetween now m.last_accessed) 90 with hd | hd
        · left
          rw [tierStep_of_warm_fresh now m hp hl ht hd]
          exact ht
        · right
          rw [tierStep_of_warm_stale now m hp hl ht hd]
          rfl

/-- C7: an object in COLD whose name matches no override rule is never touched
by a pass, whatever its `last_accessed` value: the record survives unchanged
and contributes 0 to the moved count — wherever it sits in the registry. -/
theorem c7_cold_is_terminal (now : Int)
    (pre post : List (String × FileMetadata)) (fid : String) (m : FileMetadata)
    (hp : isPriorityName m.filename = false)
    (_hl : isLegalName m.filename = false)
    (ht : m.tier = StorageTier.COLD) :
    run_tiering now (pre ++ (fid, m) :: post) =
      ((run_tiering now pre).1 ++ (fid, m) :: (run_tiering now post).1,
       (run_tiering now pre).2 + (run_tiering now post).2) := by
  have hstep : tierStep now m = (m, 0) := tierStep_of_cold now m hp ht
  rw [run_tiering_append]
  simp [run_tiering, hstep]

/-- C8: an upload whose content is below the 1MB minimum or above the 10GB
maximum is rejected with a validation error, and the state after the call —
both `files_metadata` and `files_content` — is exactly the state from before
the call. -/
theorem c8_upload_size_validation (now : Int)
    (file_id etag filename content_type : String) (content : List Nat)
    (s : ServiceState)
    (h : content.length < 1024 * 1024 ∨
         content.length > 10 * 1024 * 1024 * 1024) :
    ∃ msg, upload_file now file_id etag filename content_type content s =
      (Except.error msg, s) := by
  unfold upload_file
  rcases h with h | h
  · exact ⟨"File size must be at least 1MB", by rw [if_pos h]⟩
  · refine ⟨"File size exceeds maximum limit of 10GB", ?_⟩
    rw [if_neg (by omega), if_pos h]

/-- C9: for a stored object, the metadata-only read returns the record and
leaves the whole state (hence the record, including `last_accessed`)
unchanged, while a content download returns the bytes and produces the state
whose only difference is that this record's `last_accessed` field is set to
the current time. -/
theorem c9_metadata_read_vs_download (now : Int) (file_id : String)
    (s : ServiceState) (m : FileMetadata) (c : List Nat)
    (hm : lookupAssoc s.files_metadata file_id = some m)
    (hc : lookupAssoc s.files_content file_id = some c) :
    get_file_metadata file_id s = (Except.ok m, s) ∧
    download_file now file_id s =
      (Except.ok (c, m.filename, m.content_type),
       { s with files_metadata := (updateAssoc s.files_metadata file_id
           { m with last_accessed := now }) }) := by
  constructor
  · unfold get_file_metadata
    rw [hm]
  · unfold download_file
    rw [hm]
    simp only []
    rw [hc]

/-- C10: the backdating endpoint accepts a negative `days_ago`, setting
`last_accessed = now - days_ago · day`, which then lies strictly in the
future; the truncated days-since-access of such a record is negative, and a
record with a future `last_accessed` whose name matches no override rule is
left alone by a pass (its step moves nothing). -/
theorem c10_negative_backdate_no_demotion (now : Int) (file_id : String)
    (d : Int) (s : ServiceState) (m : FileMetadata)
    (hm : lookupAssoc s.files_metadata file_id = some m)
    (hd : d < 0)
    (hp : isPriorityName m.filename = false)
    (hl : isLegalName m.filename = false) :
    update_last_accessed now file_id d s =
      (Except.ok (now - d * usPerDay),
       { s with files_metadata := (updateAssoc s.files_metadata file_id
           { m with last_accessed := now - d * usPerDay }) }) ∧
    now < now - d * usPerDay ∧
    daysBetween now (now - d * usPerDay) < 0 ∧
    tierStep now ({ m with last_accessed := now - d * usPerDay }) =
      ({ m with last_accessed := now - d * usPerDay }, 0) := by
  have husday : (0 : Int) < usPerDay := by unfold usPerDay; norm_num
  have hdays : daysBetween now (now - d * usPerDay) = d := by
    unfold daysBetween
    have harith : now - (now - d * usPerDay) = d * usPerDay := by ring
    rw [harith]
    exact Int.mul_fdiv_cancel d (by omega)
  have hneg : d * usPerDay < 0 := mul_neg_of_neg_of_pos hd husday
  refine ⟨?_, by omega, by omega, ?_⟩
  · unfold update_last_accessed
    rw [hm]
  · set m' : FileMetadata := { m with last_accessed := now - d * usPerDay }
      with hm'
    have hpd : daysBetween now m'.last_accessed = d := by rw [hm']; exact hdays
    have hp2 : isPriorityName m'.filename = false := by rw [hm']; exact hp
    have hl2 : isLegalName m'.filename = false := by rw [hm']; exact hl
    cases ht : m'.tier with
    | HOT => exact tierStep_of_hot_fresh now m' hp2 ht (by omega)
    | WARM => exact tierStep_of_warm_fresh now m' hp2 hl2 ht (by omega)
    | COLD => exact tierStep_of_cold now m' hp2 ht

/-! ### Witnesses -/

/-- Witness for C3 at a `LEGAL_contract` record in WARM, 180 and 181 days
stale (clock at 0). -/
theorem c3_retention_boundary_witness :
    run_tiering 0
      [("b", sampleMeta "LEGAL_contract" StorageTier.WARM (-15552000000000))] =
      ([("b", sampleMeta "LEGAL_contract" StorageTier.WARM (-15552000000000))],
       0) ∧
    (run_tiering 0
      [("b", sampleMeta "LEGAL_contract" StorageTier.WARM
          (-15638400000000))]).1 =
      [("b", { sampleMeta "LEGAL_contract" StorageTier.WARM (-15638400000000)
                 with tier := StorageTier.COLD })] :=
  ⟨(c3_retention_boundary 0 [] [] "b"
      (sampleMeta "LEGAL_contract" StorageTier.WARM (-15552000000000))
      (by decide) (by decide) rfl).1 (by decide),
   congrArg Prod.fst
     ((c3_retention_boundary 0 [] [] "b"
        (sampleMeta "LEGAL_contract" StorageTier.WARM (-15638400000000))
        (by decide) (by decide) rfl).2 (by decide))⟩

/-- Witness for C4 at a `report_PRIORITY_final` record sitting in COLD, 400
days stale (clock at 0): the pass pins it back to HOT. -/
theorem c4_priority_always_hot_witness :
    (run_tiering 0
      [("c", sampleMeta "report_PRIORITY_final" StorageTier.COLD
          (-34560000000000))]).1 =
      [("c", { sampleMeta "report_PRIORITY_final" StorageTier.COLD
                 (-34560000000000) with tier := StorageTier.HOT })] :=
  c4_priority_always_hot 0 [] [] "c"
    (sampleMeta "report_PRIORITY_final" StorageTier.COLD (-34560000000000))
    (by decide)

/-- Witness for C5 at a plain `report` record in HOT, 130 days stale (clock
at 0). -/
theorem c5_two_passes_hot_to_cold_witness :
    run_tiering 0
      [("a", sampleMeta "report" StorageTier.HOT (-11232000000000))] =
      ([("a", { sampleMeta "report" StorageTier.HOT (-11232000000000)
                  with tier := StorageTier.WARM })], 1) ∧
    run_tiering 0
      [("a", { sampleMeta "report" StorageTier.HOT (-11232000000000)
                 with tier := StorageTier.WARM })] =
      ([("a", { sampleMeta "report" StorageTier.HOT (-11232000000000)
                  with tier := StorageTier.COLD })], 1) :=
  c5_two_passes_hot_to_cold 0 "a"
    (sampleMeta "report" StorageTier.HOT (-11232000000000))
    (by decide) (by decide) rfl (by decide)

/-- Witness for C6 at a plain `report` record in HOT, 130 days stale (clock
at 0). -/
theorem c6_single_step_demotion_witness :
    ∃ m', (run_tiering 0
        [("a", sampleMeta "report" StorageTier.HOT (-11232000000000))]).1 =
        [("a", m')] ∧
      (m'.tier = (sampleMeta "report" StorageTier.HOT (-11232000000000)).tier ∨
       next_tier (sampleMeta "report" StorageTier.HOT (-11232000000000)).tier =
         some m'.tier) :=
  c6_single_step_demotion 0 [] [] "a"
    (sampleMeta "report" StorageTier.HOT (-11232000000000))
    (by decide) (by decide)

/-- Witness for C7 at a plain `archive` record in COLD, 1000 days stale
(clock at 0). -/
theorem c7_cold_is_terminal_witness :
    run_tiering 0
      [("a", sampleMeta "archive" StorageTier.COLD (-86400000000000))] =
      ([("a", sampleMeta "archive" StorageTier.COLD (-86400000000000))], 0) :=
  c7_cold_is_terminal 0 [] [] "a"
    (sampleMeta "archive" StorageTier.COLD (-86400000000000))
    (by decide) (by decide) rfl

/-- Witness for C8: a 1-byte upload into the empty service is rejected and
the state is untouched. -/
theorem c8_upload_size_validation_witness :
    ∃ msg, upload_file 0 "id-2" "etag-2" "small.txt" "text/plain" [0]
        { files_metadata := [], files_content := [] } =
      (Except.error msg, { files_metadata := [], files_content := [] }) :=
  c8_upload_size_validation 0 "id-2" "etag-2" "small.txt" "text/plain" [0]
    { files_metadata := [], files_content := [] } (Or.inl (by decide))

/-- Witness for C9 at a one-record service state (clock at 5 for the
download). -/
theorem c9_metadata_read_vs_download_witness :
    get_file_metadata "f"
      { files_metadata := [("f", sampleMeta "doc.txt" StorageTier.HOT 0)],
        files_content := [("f", [1, 2, 3])] } =
      (Except.ok (sampleMeta "doc.txt" StorageTier.HOT 0),
       { files_metadata := [("f", sampleMeta "doc.txt" StorageTier.HOT 0)],
         files_content := [("f", [1, 2, 3])] }) ∧
    download_file 5 "f"
      { files_metadata := [("f", sampleMeta "doc.txt" StorageTier.HOT 0)],
        files_content := [("f", [1, 2, 3])] } =
      (Except.ok ([1, 2, 3],
         (sampleMeta "doc.txt" StorageTier.HOT 0).filename,
         (sampleMeta "doc.txt" StorageTier.HOT 0).content_type),
       { files_metadata := (updateAssoc
           [("f", sampleMeta "doc.txt" StorageTier.HOT 0)] "f"
           { sampleMeta "doc.txt" StorageTier.HOT 0 with last_accessed := 5 }),
         files_content := [("f", [1, 2, 3])] }) :=
  c9_metadata_read_vs_download 5 "f"
    { files_metadata := [("f", sampleMeta "doc.txt" StorageTier.HOT 0)],
      files_content := [("f", [1, 2, 3])] }
    (sampleMeta "doc.txt" StorageTier.HOT 0) [1, 2, 3]
    (by decide) (by decide)

/-- Witness for C10: backdating by `days_ago = -5` (clock at 0) puts
`last_accessed` 5 days into the future, and the pass step then leaves the
record alone. -/
theorem c10_negative_backdate_no_demotion_witness :
    update_last_accessed 0 "f" (-5)
      { files_metadata := [("f", sampleMeta "report" StorageTier.HOT 0)],
        files_content := [] } =
      (Except.ok (0 - (-5) * usPerDay),
       { files_metadata := (updateAssoc
           [("f", sampleMeta "report" StorageTier.HOT 0)] "f"
           { sampleMeta "report" StorageTier.HOT 0
               with last_accessed := 0 - (-5) * usPerDay }),
         files_content := [] }) ∧
    (0 : Int) < 0 - (-5) * usPerDay ∧
    daysBetween 0 (0 - (-5) * usPerDay) < 0 ∧
    tierStep 0 ({ sampleMeta "report" StorageTier.HOT 0
        with last_accessed := 0 - (-5) * usPerDay }) =
      ({ sampleMeta "report" StorageTier.HOT 0
           with last_accessed := 0 - (-5) * usPerDay }, 0) :=
  c10_negative_backdate_no_demotion 0 "f" (-5)
    { files_metadata := [("f", sampleMeta "report" StorageTier.HOT 0)],
      files_content := [] }
    (sampleMeta "report" StorageTier.HOT 0)
    (by decide) (by decide) (by decide) (by decide)

end StorageService
